import Mathlib

/-! Verification of the coordinate/unit normalization and call-site policy of the
carta scripting wrapper: a shallow embedding of `carta/util.py` (SizeUnit,
CoordinateUnit) and `carta/image.py` (`Image.set_center`, `Image.set_channel`),
with theorems about the behaviours described in the specification.

The anchored regular expressions of `util.py` are embedded as deterministic
character-list parsers. Each grammar there is anchored with a dollar sign and the
alternation/backtracking possibilities never change the accepted language or the
captured groups (digit runs are maximal because the character after a digit run
is never a digit, and every unit alternative must equal the whole remaining
suffix), so a greedy first-match parser is an exact model. -/

namespace Carta

/-- Characters matched by the regex class for whitespace (ASCII part), as used by
the optional-whitespace fragments of the unit grammars in `util.py`. -/
def isSpaceChar (c : Char) : Bool :=
  c = ' ' || c = '\t' || c = '\n' || c = '\x0b' || c = '\x0c' || c = '\r'

/-- Greedy run of decimal digits at the head of the list, with the remainder. -/
def takeDigits : List Char → List Char × List Char
  | [] => ([], [])
  | c :: r =>
    if c.isDigit then
      let p := takeDigits r
      (c :: p.1, p.2)
    else ([], c :: r)

/-- Drop the longest run of whitespace at the head of the list. -/
def dropSpaces : List Char → List Char
  | [] => []
  | c :: r => if isSpaceChar c then dropSpaces r else c :: r

/-- Greedy match of a decimal number (digits with an optional fractional part,
the regex fragment used by every grammar of `util.py`) at the head of the list:
returns the matched characters and the remainder, or none when there is no
leading digit. -/
def takeNumber (l : List Char) : Option (List Char × List Char) :=
  let p := takeDigits l
  if p.1.isEmpty then none
  else
    match p.2 with
    | '.' :: r2 =>
      let q := takeDigits r2
      if q.1.isEmpty then some (p.1, p.2) else some (p.1 ++ '.' :: q.1, q.2)
    | _ => some (p.1, p.2)

/-- Strip one optional leading minus sign. -/
def stripSign : List Char → List Char
  | '-' :: r => r
  | l => l

/-- Lowercase a character list and pack it as a string; models the
case-insensitive unit comparison of the regexes in `util.py`. -/
def lowerStr (l : List Char) : String :=
  (l.map Char.toLower).asString

namespace SizeUnit

/-- The word unit spellings of `SizeUnit` in `util.py`: the keys of
NORMALIZED_UNIT minus the symbol units. -/
def wordUnits : List String :=
  ["arcmin", "arcsec", "deg", "degree", "degrees", "px", "pix", "pixel", "pixels"]

/-- The symbol unit spellings of `SizeUnit` in `util.py`: the empty string, the
arcminute mark and the arcsecond mark. -/
def symbolUnits : List String :=
  ["", "\x27", "\""]

/-- The table `SizeUnit.NORMALIZED_UNIT` from `util.py`, as a function. The
final branch is the arcsecond mark, which maps to itself. -/
def normalizedUnit (u : String) : String :=
  if u = "arcmin" then "\x27"
  else if u = "arcsec" then "\""
  else if u = "deg" then "deg"
  else if u = "degree" then "deg"
  else if u = "degrees" then "deg"
  else if u = "px" then "px"
  else if u = "pix" then "px"
  else if u = "pixel" then "px"
  else if u = "pixels" then "px"
  else if u = "" then "\""
  else if u = "\x27" then "\x27"
  else "\""

/-- `SizeUnit.normalized` from `util.py`: try the word-unit grammar (number,
optional whitespace, word unit), then the symbol-unit grammar (number, symbol
unit with no preceding whitespace); return the numeric portion and the
normalized unit, or none where the Python raises ValueError. -/
def normalized (size : String) : Option (String × String) :=
  match takeNumber size.data with
  | none => none
  | some (num, rest) =>
    let w := lowerStr (dropSpaces rest)
    if wordUnits.contains w then some (num.asString, normalizedUnit w)
    else
      let sym := lowerStr rest
      if symbolUnits.contains sym then some (num.asString, normalizedUnit sym)
      else none

end SizeUnit

namespace CoordinateUnit

/-- The pixel unit spellings: the keys of NORMALIZED_UNIT mapping to the pixel
unit in `util.py`. -/
def pixelUnits : List String :=
  ["px", "pix", "pixel", "pixels"]

/-- The degree unit spellings: the keys of NORMALIZED_UNIT mapping to the degree
unit in `util.py`. -/
def degreeUnits : List String :=
  ["deg", "degree", "degrees"]

/-- Group 1 of `CoordinateUnit.PIXEL_UNIT_REGEX`: a number, optional whitespace
and a mandatory pixel unit. Returns the numeric portion, or none when the string
does not match. This is `CoordinateUnit.pixel_value` from `util.py` (which
raises ValueError on none). -/
def pixel_value (coord : String) : Option String :=
  match takeNumber coord.data with
  | none => none
  | some (num, rest) =>
    if pixelUnits.contains (lowerStr (dropSpaces rest)) then some num.asString
    else none

/-- `CoordinateUnit.is_pixel` from `util.py`: whether the coordinate string
matches the pixel-unit grammar. -/
def is_pixel (coord : String) : Bool :=
  (pixel_value coord).isSome

/-- Group 1 of `CoordinateUnit.DEGREE_UNIT_REGEX`: an optional minus sign
(outside the capture), a number, optional whitespace and a mandatory degree
unit. Returns the unsigned numeric portion, or none when the string does not
match. -/
def degree_value (coord : String) : Option String :=
  match takeNumber (stripSign coord.data) with
  | none => none
  | some (num, rest) =>
    if degreeUnits.contains (lowerStr (dropSpaces rest)) then some num.asString
    else none

/-- `CoordinateUnit.DECIMAL_REGEX`: an optional minus sign and a number, with
nothing following. -/
def decimalMatch (coord : String) : Bool :=
  match takeNumber (stripSign coord.data) with
  | some (_, []) => true
  | _ => false

/-- The optional seconds field of the colon grammars: one or two digits with an
optional fractional part, consuming the whole remainder. -/
def secondsMatch (l : List Char) : Bool :=
  let p := takeDigits l
  (decide (1 ≤ p.1.length) && decide (p.1.length ≤ 2)) &&
    (p.2.isEmpty ||
      (match p.2 with
       | '.' :: r2 =>
         let q := takeDigits r2
         (!q.1.isEmpty) && q.2.isEmpty
       | _ => false))

/-- `CoordinateUnit.HMS_COLON_REGEX`: optional sign, up to two digits, a colon,
up to two digits, a colon, and an optional seconds field. -/
def hmsColonMatch (coord : String) : Bool :=
  let p := takeDigits (stripSign coord.data)
  if p.1.length ≤ 2 then
    match p.2 with
    | ':' :: r2 =>
      let q := takeDigits r2
      if q.1.length ≤ 2 then
        match q.2 with
        | ':' :: r4 => r4.isEmpty || secondsMatch r4
        | _ => false
      else false
    | _ => false
  else false

/-- `CoordinateUnit.DMS_COLON_REGEX`: like the HMS colon grammar, but the
leading digit run is unbounded. -/
def dmsColonMatch (coord : String) : Bool :=
  let p := takeDigits (stripSign coord.data)
  match p.2 with
  | ':' :: r2 =>
    let q := takeDigits r2
    if q.1.length ≤ 2 then
      match q.2 with
      | ':' :: r4 => r4.isEmpty || secondsMatch r4
      | _ => false
    else false
  | _ => false

/-- One optional letter-delimited field of the letter grammars: an optional sign
(only when allowSign), a digit run (at most two digits when maxTwo), and the
given final letter, case-insensitively. Returns the capture and the remainder
when the field is present, and the empty capture with the input unchanged when
it is absent. -/
def letterField (allowSign : Bool) (maxTwo : Bool) (letter : Char)
    (l : List Char) : List Char × List Char :=
  let sgn : List Char := if allowSign then
      (match l with
       | '-' :: _ => ['-']
       | _ => [])
    else []
  let body := if sgn.isEmpty then l else l.drop 1
  let p := takeDigits body
  if 1 ≤ p.1.length && (!maxTwo || p.1.length ≤ 2) then
    match p.2 with
    | c :: r2 => if c.toLower = letter then (sgn ++ p.1, r2) else ([], l)
    | [] => ([], l)
  else ([], l)

/-- The optional seconds field of the letter grammars: one or two digits, an
optional fractional part, and a final letter s, case-insensitively. Returns the
capture and the remainder when the field is present, and the empty capture with
the input unchanged when it is absent. -/
def secondsField (l : List Char) : List Char × List Char :=
  let p := takeDigits l
  if 1 ≤ p.1.length && p.1.length ≤ 2 then
    match p.2 with
    | '.' :: r2 =>
      let q := takeDigits r2
      if q.1.isEmpty then ([], l)
      else
        match q.2 with
        | c :: r3 => if c.toLower = 's' then (p.1 ++ '.' :: q.1, r3) else ([], l)
        | [] => ([], l)
    | c :: r2 => if c.toLower = 's' then (p.1, r2) else ([], l)
    | [] => ([], l)
  else ([], l)

/-- `CoordinateUnit.HMS_LETTER_REGEX` with its three captures: an optional
signed hours field (up to two digits and the letter h), an optional minutes
field (up to two digits and the letter m), and an optional seconds field.
Missing fields are captured as empty strings; none when the whole string does
not match. -/
def hmsLetterParse (coord : String) : Option (String × String × String) :=
  let h := letterField true true 'h' coord.data
  let m := letterField false true 'm' h.2
  let s := secondsField m.2
  if s.2.isEmpty then some (h.1.asString, m.1.asString, s.1.asString) else none

/-- `CoordinateUnit.DMS_LETTER_REGEX` with its three captures: like the HMS
letter grammar, but the leading field is an unbounded signed digit run followed
by the letter d. -/
def dmsLetterParse (coord : String) : Option (String × String × String) :=
  let d := letterField true false 'd' coord.data
  let m := letterField false true 'm' d.2
  let s := secondsField m.2
  if s.2.isEmpty then some (d.1.asString, m.1.asString, s.1.asString) else none

end CoordinateUnit

/-- Modelled from the spec: the NumberFormat enumeration (degrees, HMS, DMS)
from the constants module, which is not under src/. -/
inductive NumberFormat where
  | DEGREES
  | HMS
  | DMS
  deriving DecidableEq, Repr

namespace CoordinateUnit

/-- `CoordinateUnit.normalized` from `util.py`: parse a world coordinate string
using the specified number format. For each format the colon or bare-decimal
grammar is tried before the letter or unit grammar and the first match wins;
letter-form parts are reassembled with colons, missing parts rendered as empty
strings. Returns none where the Python raises ValueError. -/
def normalized (coord : String) (number_format : NumberFormat) : Option String :=
  match number_format with
  | NumberFormat.DEGREES =>
    if decimalMatch coord then some coord
    else
      match degree_value coord with
      | some m => some m
      | none => none
  | NumberFormat.HMS =>
    if hmsColonMatch coord then some coord
    else
      match hmsLetterParse coord with
      | some (a, b, c) => some (a ++ ":" ++ b ++ ":" ++ c)
      | none => none
  | NumberFormat.DMS =>
    if dmsColonMatch coord then some coord
    else
      match dmsLetterParse coord with
      | some (a, b, c) => some (a ++ ":" ++ b ++ ":" ++ c)
      | none => none

end CoordinateUnit

/-- Numeric value of a digit run. -/
def digitsVal (l : List Char) : ℕ :=
  l.foldl (fun a c => 10 * a + (c.toNat - '0'.toNat)) 0

/-- Exact rational value of a numeric string of the shape digits with an
optional fractional part; models the Python float conversion applied to the
numeric portions extracted by the grammars. -/
def floatOfNum (s : String) : ℚ :=
  let p := takeDigits s.data
  match p.2 with
  | '.' :: r2 =>
    let q := takeDigits r2
    (digitsVal p.1 : ℚ) + (digitsVal q.1 : ℚ) / (10 : ℚ) ^ (takeDigits r2).1.length
  | _ => (digitsVal p.1 : ℚ)

/-- Modelled from the spec: the CoordinateSystem enumeration from the constants
module, which is not under src/; members as used by the tests. -/
inductive CoordinateSystem where
  | Auto
  | Ecliptic
  | FK4
  | FK5
  | Galactic
  | ICRS
  deriving DecidableEq, Repr

/-- A remote action dispatched by `Image.set_center` in `image.py`: either the
pixel-coordinate action with two floating values, or the world-coordinate
action with two normalized coordinate strings. -/
inductive Action where
  | setCenter (x y : ℚ)
  | setCenterWcs (x y : String)
  deriving DecidableEq, Repr

/-- The ValueError raised by `Image.set_center` in `image.py`, as structured
data. The bounds error carries exactly what its message interpolates: the
offending point and the image extent. -/
inductive SetCenterError where
  | bounds (x y : ℚ) (width height : ℕ)
  | mixedUnits
  | missingWCS
  | formatErr (coord : String) (fmt : NumberFormat)
  deriving DecidableEq, Repr

/-- The literal message of the mixed-units ValueError in `image.py`. -/
def mixedUnitsMessage : String :=
  "Cannot mix image and world coordinates."

/-- The literal message of the missing-WCS ValueError in `image.py`. -/
def missingWCSMessage : String :=
  "Cannot parse world coordinates. This image does not contain valid WCS information."

/-- The image and session facts read by `Image.set_center`: the image extent and
WCS validity from the image metadata, and the per-axis number formats reported
by the session. -/
structure ImageCtx where
  width : ℕ
  height : ℕ
  valid_wcs : Bool
  number_format_x : NumberFormat
  number_format_y : NumberFormat
  deriving DecidableEq, Repr

/-- The observable outcome of one `Image.set_center` call: the coordinate system
set session-wide (recorded before the coordinates are classified, mirroring the
session mutation at the top of the method), and either the dispatched remote
action or the raised error. -/
structure SetCenterOutcome where
  systemSet : Option CoordinateSystem
  result : Except SetCenterError Action
  deriving Repr

/-- The dispatch-or-raise logic of `Image.set_center` from `image.py`: classify
both components with the pixel grammar; if both are pixel, bounds-check their
floating values against the image extent and dispatch the pixel action or raise
the bounds error; if exactly one is pixel, raise the mixed-units error;
otherwise require valid WCS metadata and dispatch the world action with both
components normalized against the per-axis number formats, raising a format
error when normalization fails. The values bound to x_value and y_value in the
Python are written out in full here. -/
def set_center_result (ctx : ImageCtx) (x y : String) :
    Except SetCenterError Action :=
  if CoordinateUnit.is_pixel x && CoordinateUnit.is_pixel y then
    if 0 ≤ floatOfNum ((CoordinateUnit.pixel_value x).getD "") ∧
        floatOfNum ((CoordinateUnit.pixel_value x).getD "") < (ctx.width : ℚ) ∧
        0 ≤ floatOfNum ((CoordinateUnit.pixel_value y).getD "") ∧
        floatOfNum ((CoordinateUnit.pixel_value y).getD "") < (ctx.height : ℚ) then
      Except.ok (Action.setCenter
        (floatOfNum ((CoordinateUnit.pixel_value x).getD ""))
        (floatOfNum ((CoordinateUnit.pixel_value y).getD "")))
    else
      Except.error (SetCenterError.bounds
        (floatOfNum ((CoordinateUnit.pixel_value x).getD ""))
        (floatOfNum ((CoordinateUnit.pixel_value y).getD ""))
        ctx.width ctx.height)
  else if CoordinateUnit.is_pixel x || CoordinateUnit.is_pixel y then
    Except.error SetCenterError.mixedUnits
  else if ctx.valid_wcs = false then
    Except.error SetCenterError.missingWCS
  else
    match CoordinateUnit.normalized x ctx.number_format_x with
    | none => Except.error (SetCenterError.formatErr x ctx.number_format_x)
    | some nx =>
      match CoordinateUnit.normalized y ctx.number_format_y with
      | none => Except.error (SetCenterError.formatErr y ctx.number_format_y)
      | some ny => Except.ok (Action.setCenterWcs nx ny)

/-- `Image.set_center` from `image.py`: the session-wide coordinate system is
changed first, before the coordinates are classified or validated, and the
outcome records that change next to the dispatched action or raised error. -/
def set_center (ctx : ImageCtx) (x y : String)
    (system : Option CoordinateSystem) : SetCenterOutcome :=
  ⟨system, set_center_result ctx x y⟩

/-- Modelled from the spec: the numeric validation rule attached to
`Image.set_channel` by the validation module, which is not under src/. Per the
spec it checks the live bounds with the minimum zero inclusive, the maximum (the
image depth) exclusive, and step one, producing a descriptive message for the
first violated constraint; the message fragments are the ones the spec's
scenarios require. -/
def channelRuleError (depth : ℕ) (v : ℚ) : Option String :=
  if v < 0 then some "value must be greater or equal to 0"
  else if (depth : ℚ) ≤ v then some "value must be smaller than the depth"
  else if v.den ≠ 1 then some "value is not an increment of 1"
  else none

/-- The observable outcome of one `Image.set_channel` call: either the wrapped
call executes and dispatches the channel, or validation rejects the call. -/
inductive ChannelOutcome where
  | dispatched (channel : ℚ)
  | validationError (message : String)
  deriving DecidableEq, Repr

/-- `Image.set_channel` from `image.py`, composed with its validation rule: on
acceptance the wrapped call dispatches the channel-setting action with the given
channel. -/
def set_channel (depth : ℕ) (channel : ℚ) : ChannelOutcome :=
  match channelRuleError depth channel with
  | some msg => ChannelOutcome.validationError msg
  | none => ChannelOutcome.dispatched channel

/-! Theorems. -/

/-- A successful degree-unit parse leaves a nonempty remainder after the number,
so the bare-decimal grammar cannot also match the same string. -/
theorem decimalMatch_eq_false_of_degree_value {coord : String} {m : String}
    (h : CoordinateUnit.degree_value coord = some m) :
    CoordinateUnit.decimalMatch coord = false := by
  unfold CoordinateUnit.degree_value at h
  unfold CoordinateUnit.decimalMatch
  cases htn : takeNumber (stripSign coord.data) with
  | none => rfl
  | some p =>
    obtain ⟨num, rest⟩ := p
    rw [htn] at h
    cases rest with
    | nil => exact Option.noConfusion h
    | cons c r => rfl

/-- Claim C1: for every pair of pixel-coordinate strings whose numeric values
satisfy the bounds given by the image extent, set_center dispatches the pixel
remote action with the floating values of the two coordinates, and never
dispatches the world-coordinate remote action. -/
theorem c1_set_center_pixel_in_bounds (ctx : ImageCtx) (x y xv yv : String)
    (system : Option CoordinateSystem)
    (hx : CoordinateUnit.pixel_value x = some xv)
    (hy : CoordinateUnit.pixel_value y = some yv)
    (hx0 : 0 ≤ floatOfNum xv) (hxw : floatOfNum xv < (ctx.width : ℚ))
    (hy0 : 0 ≤ floatOfNum yv) (hyh : floatOfNum yv < (ctx.height : ℚ)) :
    (set_center ctx x y system).result
      = Except.ok (Action.setCenter (floatOfNum xv) (floatOfNum yv)) ∧
    ∀ a b : String,
      (set_center ctx x y system).result ≠ Except.ok (Action.setCenterWcs a b) := by
  have hpx : CoordinateUnit.is_pixel x = true := by
    unfold CoordinateUnit.is_pixel
    rw [hx]
    rfl
  have hpy : CoordinateUnit.is_pixel y = true := by
    unfold CoordinateUnit.is_pixel
    rw [hy]
    rfl
  have hmain : (set_center ctx x y system).result
      = Except.ok (Action.setCenter (floatOfNum xv) (floatOfNum yv)) := by
    show set_center_result ctx x y = _
    unfold set_center_result
    rw [hpx, hpy, hx, hy]
    simp only [Bool.and_self, Option.getD_some, if_true]
    rw [if_pos ⟨hx0, hxw, hy0, hyh⟩]
  refine ⟨hmain, ?_⟩
  intro a b hab
  rw [hmain] at hab
  simp at hab

/-- Claim C2: for every pair of pixel-coordinate strings whose numeric value on
some axis reaches the image extent or is negative, set_center raises the bounds
error carrying the offending point and the image extent, which is exactly what
its message names. -/
theorem c2_set_center_pixel_out_of_bounds (ctx : ImageCtx) (x y xv yv : String)
    (system : Option CoordinateSystem)
    (hx : CoordinateUnit.pixel_value x = some xv)
    (hy : CoordinateUnit.pixel_value y = some yv)
    (hout : (ctx.width : ℚ) ≤ floatOfNum xv ∨ (ctx.height : ℚ) ≤ floatOfNum yv ∨
      floatOfNum xv < 0 ∨ floatOfNum yv < 0) :
    (set_center ctx x y system).result
      = Except.error (SetCenterError.bounds (floatOfNum xv) (floatOfNum yv)
          ctx.width ctx.height) := by
  have hpx : CoordinateUnit.is_pixel x = true := by
    unfold CoordinateUnit.is_pixel
    rw [hx]
    rfl
  have hpy : CoordinateUnit.is_pixel y = true := by
    unfold CoordinateUnit.is_pixel
    rw [hy]
    rfl
  have hneg : ¬ (0 ≤ floatOfNum xv ∧ floatOfNum xv < (ctx.width : ℚ) ∧
      0 ≤ floatOfNum yv ∧ floatOfNum yv < (ctx.height : ℚ)) := by
    rcases hout with h | h | h | h
    · rintro ⟨-, h2, -, -⟩
      exact absurd h2 (not_lt.mpr h)
    · rintro ⟨-, -, -, h4⟩
      exact absurd h4 (not_lt.mpr h)
    · rintro ⟨h1, -, -, -⟩
      exact absurd h1 (not_le.mpr h)
    · rintro ⟨-, -, h3, -⟩
      exact absurd h3 (not_le.mpr h)
  show set_center_result ctx x y = _
  unfold set_center_result
  rw [hpx, hpy, hx, hy]
  simp only [Bool.and_self, Option.getD_some, if_true]
  rw [if_neg hneg]

/-- Claim C3: whenever exactly one of the two components matches the pixel-unit
grammar, set_center raises the mixed-units error, whatever the values are. -/
theorem c3_set_center_mixed_units (ctx : ImageCtx) (x y : String)
    (system : Option CoordinateSystem)
    (h : CoordinateUnit.is_pixel x ≠ CoordinateUnit.is_pixel y) :
    (set_center ctx x y system).result = Except.error SetCenterError.mixedUnits := by
  show set_center_result ctx x y = _
  unfold set_center_result
  cases hbx : CoordinateUnit.is_pixel x <;> cases hby : CoordinateUnit.is_pixel y
  · rw [hbx, hby] at h
    exact absurd rfl h
  · simp
  · simp
  · rw [hbx, hby] at h
    exact absurd rfl h

/-- Claim C4: whenever neither component matches the pixel-unit grammar, an
image without valid WCS metadata makes set_center raise the missing-WCS error,
whose literal message contains the words valid WCS information, and nothing is
dispatched; with valid WCS metadata, set_center dispatches the world-coordinate
remote action with the two components normalized against the per-axis number
formats. -/
theorem c4_set_center_world (ctx : ImageCtx) (x y : String)
    (system : Option CoordinateSystem)
    (hx : CoordinateUnit.is_pixel x = false)
    (hy : CoordinateUnit.is_pixel y = false) :
    (ctx.valid_wcs = false →
      (set_center ctx x y system).result = Except.error SetCenterError.missingWCS ∧
      ∃ a b : String, missingWCSMessage = a ++ "valid WCS information" ++ b) ∧
    (ctx.valid_wcs = true → ∀ nx ny : String,
      CoordinateUnit.normalized x ctx.number_format_x = some nx →
      CoordinateUnit.normalized y ctx.number_format_y = some ny →
      (set_center ctx x y system).result = Except.ok (Action.setCenterWcs nx ny)) := by
  constructor
  · intro hw
    constructor
    · show set_center_result ctx x y = _
      unfold set_center_result
      rw [hx, hy, hw]
      simp
    · exact ⟨"Cannot parse world coordinates. This image does not contain ", ".", rfl⟩
  · intro hw nx ny hnx hny
    show set_center_result ctx x y = _
    unfold set_center_result
    rw [hx, hy, hw, hnx, hny]
    simp

/-- Claim C5: the size normalizer returns the magnitude with the pixel tag for
"123px", the degree tag for "123 deg", the arcminute tag for "123arcmin", the
arcsecond tag for a bare "123", and rejects "abc". -/
theorem c5_size_normalizer_round_trip :
    SizeUnit.normalized "123px" = some ("123", "px") ∧
    SizeUnit.normalized "123 deg" = some ("123", "deg") ∧
    SizeUnit.normalized "123arcmin" = some ("123", "\x27") ∧
    SizeUnit.normalized "123" = some ("123", "\"") ∧
    SizeUnit.normalized "abc" = none := by
  refine ⟨?_, ?_, ?_, ?_, ?_⟩ <;> decide

/-- Claim C6: coordinate normalization is idempotent on the canonical colon
form, the letter forms reassemble to the same canonical result, and for each
format every string accepted by the colon-delimited grammar is returned
unchanged because that grammar is tried first and the first match wins. -/
theorem c6_coord_normalizer_canonical :
    CoordinateUnit.normalized "12:34:56.789" NumberFormat.HMS = some "12:34:56.789" ∧
    CoordinateUnit.normalized "12h34m56.789s" NumberFormat.HMS = some "12:34:56.789" ∧
    CoordinateUnit.normalized "12d34m56.789s" NumberFormat.DMS = some "12:34:56.789" ∧
    (∀ coord : String, CoordinateUnit.hmsColonMatch coord = true →
      CoordinateUnit.normalized coord NumberFormat.HMS = some coord) ∧
    (∀ coord : String, CoordinateUnit.dmsColonMatch coord = true →
      CoordinateUnit.normalized coord NumberFormat.DMS = some coord) := by
  refine ⟨by decide, by decide, by decide, ?_, ?_⟩
  · intro coord hc
    unfold CoordinateUnit.normalized
    rw [hc]
    simp
  · intro coord hc
    unfold CoordinateUnit.normalized
    rw [hc]
    simp

/-- Witness for claim C6 at a concrete colon-form input. -/
theorem c6_witness :
    CoordinateUnit.hmsColonMatch "1:2:3" = true ∧
    CoordinateUnit.normalized "1:2:3" NumberFormat.HMS = some "1:2:3" :=
  ⟨by decide, c6_coord_normalizer_canonical.2.2.2.1 "1:2:3" (by decide)⟩

/-- Claim C7: the numeric rule guarding set_channel, with live bounds from zero
inclusive to the image depth exclusive and step one, accepts every integer
channel below the depth (the wrapped call then dispatches), rejects the depth
itself with a message containing must be smaller, rejects three halves with a
message containing not an increment of 1, and rejects minus three with a
message containing must be greater or equal. -/
theorem c7_set_channel_validation (depth : ℕ) :
    (∀ n : ℕ, n < depth →
      set_channel depth (n : ℚ) = ChannelOutcome.dispatched (n : ℚ)) ∧
    (∃ msg : String, set_channel depth (depth : ℚ) = ChannelOutcome.validationError msg ∧
      ∃ a b : String, msg = a ++ "must be smaller" ++ b) ∧
    (2 ≤ depth →
      ∃ msg : String, set_channel depth ((3 : ℚ) / 2) = ChannelOutcome.validationError msg ∧
        ∃ a b : String, msg = a ++ "not an increment of 1" ++ b) ∧
    (∃ msg : String, set_channel depth ((-3 : ℚ)) = ChannelOutcome.validationError msg ∧
      ∃ a b : String, msg = a ++ "must be greater or equal" ++ b) := by
  refine ⟨?_, ?_, ?_, ?_⟩
  · intro n hn
    unfold set_channel channelRuleError
    rw [if_neg (not_lt.mpr (by positivity)), if_neg, if_neg]
    · simp [Rat.den_natCast]
    · exact not_le.mpr (by exact_mod_cast hn)
  · refine ⟨"value must be smaller than the depth", ?_, "value ", " than the depth", rfl⟩
    unfold set_channel channelRuleError
    rw [if_neg (not_lt.mpr (by positivity)), if_pos le_rfl]
  · intro hd
    refine ⟨"value is not an increment of 1", ?_, "value is ", "", ?_⟩
    · have hlt : (3 : ℚ) / 2 < (depth : ℚ) := by
        have h2 : (2 : ℚ) ≤ (depth : ℚ) := by exact_mod_cast hd
        linarith
      have hden : ((3 : ℚ) / 2).den ≠ 1 := by
        have hiff := Rat.den_div_natCast_eq_one_iff 3 2 (by norm_num)
        intro hone
        have : (2 : ℕ) ∣ 3 := by
          apply hiff.mp
          convert hone using 3
        omega
      unfold set_channel channelRuleError
      rw [if_neg (by norm_num), if_neg (not_le.mpr hlt), if_pos hden]
    · rfl
  · refine ⟨"value must be greater or equal to 0", ?_, "value ", " to 0", rfl⟩
    unfold set_channel channelRuleError
    rw [if_pos (by norm_num)]

/-- Witness for claim C7 at depth twenty and channel ten. -/
theorem c7_witness :
    set_channel 20 ((10 : ℕ) : ℚ) = ChannelOutcome.dispatched ((10 : ℕ) : ℚ) :=
  (c7_set_channel_validation 20).1 10 (by norm_num)

/-- Claim C8: under the degrees number format, any string accepted by the
degree-unit grammar (optionally signed magnitude, optional space, degree unit)
normalizes to the unsigned magnitude, so a leading minus sign is dropped; a
bare decimal without a unit is returned unchanged and keeps its sign. -/
theorem c8_degree_sign_dropped :
    (∀ coord m : String, CoordinateUnit.degree_value coord = some m →
      CoordinateUnit.normalized coord NumberFormat.DEGREES = some m) ∧
    CoordinateUnit.normalized "-12.5deg" NumberFormat.DEGREES = some "12.5" ∧
    CoordinateUnit.normalized "-12.5" NumberFormat.DEGREES = some "-12.5" := by
  refine ⟨?_, by decide, by decide⟩
  intro coord m h
  have hdm := decimalMatch_eq_false_of_degree_value h
  unfold CoordinateUnit.normalized
  rw [if_neg (by simp [hdm]), h]

/-- Witness for claim C8 at a concrete signed degree-unit input. -/
theorem c8_witness :
    CoordinateUnit.degree_value "-12.5deg" = some "12.5" ∧
    CoordinateUnit.normalized "-12.5deg" NumberFormat.DEGREES = some "12.5" :=
  ⟨by decide, c8_degree_sign_dropped.1 "-12.5deg" "12.5" (by decide)⟩

/-- Claim C9: under the HMS and DMS number formats every letter-delimited part
is optional, so the empty string is accepted and normalizes to two bare colons
rather than raising a format error. -/
theorem c9_empty_string_accepted :
    CoordinateUnit.normalized "" NumberFormat.HMS = some "::" ∧
    CoordinateUnit.normalized "" NumberFormat.DMS = some "::" := by
  constructor <;> decide

/-- Claim C10: set_center records the session-wide coordinate-system change
before the coordinates are classified or validated, so whenever a system is
supplied the change is present in the outcome, even when the call raises; the
concrete conjuncts exhibit this on a call that raises the mixed-units error. -/
theorem c10_system_change_not_atomic :
    (∀ (ctx : ImageCtx) (x y : String) (s : CoordinateSystem),
      (set_center ctx x y (some s)).systemSet = some s) ∧
    (set_center ⟨20, 20, false, NumberFormat.DEGREES, NumberFormat.DEGREES⟩
        "123px" "123" (some CoordinateSystem.Galactic)).systemSet
      = some CoordinateSystem.Galactic ∧
    (set_center ⟨20, 20, false, NumberFormat.DEGREES, NumberFormat.DEGREES⟩
        "123px" "123" (some CoordinateSystem.Galactic)).result
      = Except.error SetCenterError.mixedUnits := by
  refine ⟨fun ctx x y s => rfl, rfl, by rfl⟩

/-- Witness for claim C1 at width and height twenty with both coordinates at
ten pixels. -/
theorem c1_witness :
    (set_center ⟨20, 20, true, NumberFormat.DEGREES, NumberFormat.DEGREES⟩
        "10px" "10px" none).result
      = Except.ok (Action.setCenter (floatOfNum "10") (floatOfNum "10")) :=
  (c1_set_center_pixel_in_bounds
    ⟨20, 20, true, NumberFormat.DEGREES, NumberFormat.DEGREES⟩
    "10px" "10px" "10" "10" none (by decide) (by decide)
    (by decide) (by decide) (by decide) (by decide)).1

/-- Witness for claim C2 at width and height two hundred with an x coordinate of
two thousand pixels. -/
theorem c2_witness :
    (set_center ⟨200, 200, true, NumberFormat.DEGREES, NumberFormat.DEGREES⟩
        "2000px" "123px" none).result
      = Except.error (SetCenterError.bounds (floatOfNum "2000") (floatOfNum "123")
          200 200) :=
  c2_set_center_pixel_out_of_bounds
    ⟨200, 200, true, NumberFormat.DEGREES, NumberFormat.DEGREES⟩
    "2000px" "123px" "2000" "123" none (by decide) (by decide)
    (Or.inl (by decide))

/-- Witness for claim C3 at a pixel x coordinate and a world y coordinate. -/
theorem c3_witness :
    (set_center ⟨200, 200, true, NumberFormat.DEGREES, NumberFormat.DEGREES⟩
        "123px" "123" none).result
      = Except.error SetCenterError.mixedUnits :=
  c3_set_center_mixed_units
    ⟨200, 200, true, NumberFormat.DEGREES, NumberFormat.DEGREES⟩
    "123px" "123" none (by decide)

/-- Witness for claim C4 on an image without valid WCS metadata. -/
theorem c4_witness :
    (set_center ⟨20, 20, false, NumberFormat.DEGREES, NumberFormat.DEGREES⟩
        "123" "123" none).result = Except.error SetCenterError.missingWCS ∧
    ∃ a b : String, missingWCSMessage = a ++ "valid WCS information" ++ b :=
  (c4_set_center_world ⟨20, 20, false, NumberFormat.DEGREES, NumberFormat.DEGREES⟩
    "123" "123" none (by decide) (by decide)).1 rfl

end Carta
